import Mathlib

/-
Shallow embedding of the TARDIS-em repository slice:
  * tardis_em/utils/logging_config.py  (setup_logger, get_logger,
    set_log_level, configure_tardis_logging)
  * tardis_em/__init__.py              (import-time side effects)

The Python logging registry is modelled as a total function from logger
names (`Option String`, `none` being the root logger) to logger records.
Filesystem effects are modelled with an explicit `FileSystem` value, and
the impure inputs of `setup_logger` (the home directory, the formatted
current time, and the platform outcome of `Path.mkdir` and of
`logging.FileHandler`) are supplied by a `Host` record, so that
platform failures and their propagation are expressible.
-/

namespace Tardis

/-- Filesystem paths as lists of components (`Path.home() / ".tardis_em" / "logs"`
becomes `home ++ [".tardis_em", "logs"]`). -/
abbrev Path := List String

/-- Platform filesystem errors that `Path.mkdir` or `logging.FileHandler`
may raise; the code under verification never constructs or inspects these. -/
inductive FsError where
  | permissionDenied
  | notFound
  | diskFull
  | osError (code : Nat)
deriving DecidableEq

/-- The directories and regular files that exist. -/
structure FileSystem where
  dirs : List Path
  files : List Path
deriving DecidableEq

/-- All initial segments of a path: the path itself and every ancestor. -/
def initialSegments (p : Path) : List Path :=
  (List.range (p.length + 1)).map (fun i => p.take i)

/-- Effect of `p.mkdir(parents=True, exist_ok=True)`: every missing initial
segment of `p` is created, and nothing fails merely because a directory
already exists. -/
def FileSystem.mkdirParents (fs : FileSystem) (p : Path) : FileSystem :=
  { fs with dirs := fs.dirs ++ (initialSegments p).filter (fun q => !(decide (q ∈ fs.dirs))) }

/-- Effect of `logging.FileHandler(p)` on the filesystem: the file is opened
in append mode, so it is created only when absent. -/
def FileSystem.touchFile (fs : FileSystem) (p : Path) : FileSystem :=
  if p ∈ fs.files then fs else { fs with files := fs.files ++ [p] }

/-- A `logging.Formatter(fmt=..., datefmt=...)`. -/
structure Formatter where
  fmt : String
  datefmt : String
deriving DecidableEq

/-- Target stream of a `logging.StreamHandler`. -/
inductive StreamTarget where
  | stdout
  | stderr
deriving DecidableEq

/-- The two kinds of handler the module constructs. -/
inductive HandlerKind where
  | stream (target : StreamTarget)
  | file (path : Path)
deriving DecidableEq

/-- A logging handler: its kind, its level, and its formatter. -/
structure Handler where
  kind : HandlerKind
  level : Int
  formatter : Option Formatter
deriving DecidableEq

/-- The mutable state of one `logging.Logger` that this module touches. -/
structure Logger where
  level : Int
  propagate : Bool
  handlers : List Handler
deriving DecidableEq

/-- The process-wide logger registry, keyed by name; `logging.getLogger`
creates loggers on first use, so the registry is total. -/
abbrev Registry := Option String → Logger

/-- Registry together with the filesystem: the state `setup_logger` reads
and writes. -/
structure World where
  registry : Registry
  fs : FileSystem

/-- Point update of the registry, as performed by mutating the logger
object registered under `name`. -/
def updateReg (reg : Registry) (name : Option String) (l : Logger) : Registry :=
  fun n => if n = name then l else reg n

/-- Impure inputs of `setup_logger`: `Path.home()`, the formatted
`datetime.now().strftime("%Y%m%d_%H%M%S")`, and the platform outcome of the
`mkdir` call and of the `FileHandler` constructor (`none` = success). -/
structure Host where
  homeDir : Path
  nowTimestamp : String
  mkdirOutcome : Option FsError
  fileHandlerOutcome : Option FsError

/-- Python logging levels used by the module. -/
def NOTSET : Int := 0

/-- logging.DEBUG -/
def DEBUG : Int := 10

/-- logging.INFO -/
def INFO : Int := 20

/-- logging.WARNING -/
def WARNING : Int := 30

/-- logging.ERROR -/
def ERROR : Int := 40

/-- logging.CRITICAL -/
def CRITICAL : Int := 50

/-- The single formatter `setup_logger` builds. -/
def tardisFormatter : Formatter :=
  { fmt := "%(asctime)s - %(name)s - %(levelname)s - %(message)s"
    datefmt := "%Y-%m-%d %H:%M:%S" }

/-- The console handler: `StreamHandler(sys.stdout)` with `setLevel(level)`
and `setFormatter(formatter)` applied. -/
def consoleHandler (level : Int) : Handler :=
  { kind := .stream .stdout, level := level, formatter := some tardisFormatter }

/-- The file handler: `FileHandler(p)` with `setLevel(level)` and
`setFormatter(formatter)` applied. -/
def fileHandlerFor (p : Path) (level : Int) : Handler :=
  { kind := .file p, level := level, formatter := some tardisFormatter }

/-- `Path.home() / ".tardis_em" / "logs"`. -/
def defaultLogDir (home : Path) : Path := home ++ [".tardis_em", "logs"]

/-- `f"tardis_\x7btimestamp\x7d.log"`. -/
def defaultLogFileName (ts : String) : String := "tardis_" ++ ts ++ ".log"

/-- Tail of `setup_logger` from `file_handler = logging.FileHandler(log_file)`
on: on platform failure the exception propagates with the state reached so
far; on success the handler is appended and the registry updated. -/
def attachFileHandler (host : Host) (name : Option String) (level : Int)
    (l2 : Logger) (p : Path) (w : World) : World × Except FsError Logger :=
  match host.fileHandlerOutcome with
  | some e => (w, .error e)
  | none =>
      let l3 : Logger := { l2 with handlers := l2.handlers ++ [fileHandlerFor p level] }
      ({ registry := updateReg w.registry name l3, fs := w.fs.touchFile p }, .ok l3)

/-- Embedding of `setup_logger(name, level, log_file, console_output,
file_output)`.  The logger is looked up, its level set, `propagate` set to
`False`, its handlers cleared; then a console handler is attached when
`console_output`, and a file handler when `file_output`, with the default
directory created and a timestamped filename chosen when `log_file is None`.
The second component is the returned logger, or the propagated platform
exception. -/
def setup_logger (host : Host) (name : Option String) (level : Int)
    (log_file : Option Path) (console_output : Bool) (file_output : Bool)
    (w : World) : World × Except FsError Logger :=
  let l0 := w.registry name
  let l1 : Logger := { l0 with level := level, propagate := false, handlers := [] }
  let l2 : Logger :=
    if console_output then { l1 with handlers := l1.handlers ++ [consoleHandler level] } else l1
  let w2 : World := { w with registry := updateReg w.registry name l2 }
  if file_output then
    match log_file with
    | none =>
        match host.mkdirOutcome with
        | some e => (w2, .error e)
        | none =>
            let logDir := defaultLogDir host.homeDir
            let w3 : World := { w2 with fs := w2.fs.mkdirParents logDir }
            attachFileHandler host name level l2
              (logDir ++ [defaultLogFileName host.nowTimestamp]) w3
    | some p => attachFileHandler host name level l2 p w2
  else (w2, .ok l2)

/-- Embedding of `get_logger(name)`: plain registry lookup. -/
def get_logger (name : String) (reg : Registry) : Logger :=
  reg (some name)

/-- Embedding of `set_log_level(level)`: sets the level of the logger named
"tardis_em" and of each of its handlers. -/
def set_log_level (level : Int) (reg : Registry) : Registry :=
  let l := reg (some "tardis_em")
  let l' : Logger :=
    { l with level := level
             handlers := l.handlers.map (fun h => { h with level := level }) }
  updateReg reg (some "tardis_em") l'

/-- A call of `logger.info`/`logger.log`, recorded as an event. -/
structure LogEvent where
  loggerName : Option String
  level : Int
  msg : String
deriving DecidableEq

/-- Embedding of `configure_tardis_logging(level, log_file, console_output,
file_output)`: configures the logger named "tardis_em" through
`setup_logger`, then logs the initial message on it; when `setup_logger`
raises, the exception propagates and no message is logged. -/
def configure_tardis_logging (host : Host) (level : Int) (log_file : Option Path)
    (console_output : Bool) (file_output : Bool) (w : World) :
    World × Except FsError Unit × List LogEvent :=
  let t := setup_logger host (some "tardis_em") level log_file console_output file_output w
  match t.2 with
  | .error e => (t.1, .error e, [])
  | .ok _ =>
      (t.1, .ok (),
        [{ loggerName := some "tardis_em", level := INFO
           msg := "TARDIS-em logging initialized" }])

/-- Environment variables (`os.environ`). -/
abbrev EnvVars := String → Option String

/-- `os.environ[k] = v`. -/
def setEnvVar (env : EnvVars) (k v : String) : EnvVars :=
  fun k' => if k' = k then some v else env k'

/-- Result of importing the `tardis_em` package. -/
structure InitResult where
  env : EnvVars
  world : World
  outcome : Except FsError Unit
  events : List LogEvent

/-- Embedding of the module-level statements of `tardis_em/__init__.py`:
set `os.environ["PYTORCH_ENABLE_MPS_FALLBACK"] = "1"`, then
`configure_tardis_logging(level=logging.INFO)`, then log
"TARDIS initialized" on the logger named by `__name__` (= "tardis_em"). -/
def tardis_em_init (host : Host) (env : EnvVars) (w : World) : InitResult :=
  let env' := setEnvVar env "PYTORCH_ENABLE_MPS_FALLBACK" "1"
  let t := configure_tardis_logging host INFO none true true w
  match t.2.1 with
  | .error e => { env := env', world := t.1, outcome := .error e, events := t.2.2 }
  | .ok _ =>
      { env := env', world := t.1, outcome := .ok ()
        events := t.2.2 ++
          [{ loggerName := some "tardis_em", level := INFO, msg := "TARDIS initialized" }] }

/-- A logger in the state `logging.getLogger` gives it on first use. -/
def freshLogger : Logger := { level := NOTSET, propagate := true, handlers := [] }

/-- A concrete world for witnesses: fresh registry, empty filesystem. -/
def w0 : World :=
  { registry := fun _ => freshLogger, fs := { dirs := [], files := [] } }

/-- A concrete host on which every platform operation succeeds. -/
def host0 : Host :=
  { homeDir := ["home", "user"], nowTimestamp := "20260101_120000"
    mkdirOutcome := none, fileHandlerOutcome := none }

/-- A concrete host on which `mkdir` fails with a permission error. -/
def hostMkdirFail : Host := { host0 with mkdirOutcome := some .permissionDenied }

theorem updateReg_self (reg : Registry) (n : Option String) (l : Logger) :
    updateReg reg n l n = l := by
  simp [updateReg]

theorem updateReg_updateReg (reg : Registry) (n : Option String) (a b : Logger) :
    updateReg (updateReg reg n a) n b = updateReg reg n b := by
  funext m
  by_cases h : m = n <;> simp [updateReg, h]

theorem self_mem_initialSegments (p : Path) : p ∈ initialSegments p := by
  simp only [initialSegments, List.mem_map, List.mem_range]
  exact ⟨p.length, by omega, List.take_length p⟩

theorem mem_mkdirParents (fs : FileSystem) (p q : Path) :
    q ∈ (fs.mkdirParents p).dirs ↔ q ∈ fs.dirs ∨ q ∈ initialSegments p := by
  simp only [FileSystem.mkdirParents, List.mem_append, List.mem_filter,
    Bool.not_eq_true', decide_eq_false_iff_not]
  tauto

theorem mkdirParents_noop (fs : FileSystem) (p : Path)
    (h : ∀ q ∈ initialSegments p, q ∈ fs.dirs) :
    (fs.mkdirParents p).dirs = fs.dirs := by
  have : (initialSegments p).filter (fun q => !(decide (q ∈ fs.dirs))) = [] := by
    rw [List.filter_eq_nil_iff]
    intro a ha
    simp [h a ha]
  simp [FileSystem.mkdirParents, this]

theorem touchFile_dirs (fs : FileSystem) (p : Path) :
    (fs.touchFile p).dirs = fs.dirs := by
  simp only [FileSystem.touchFile]
  split <;> rfl

theorem setup_logger_registry_eq (host : Host) (name : Option String)
    (level : Int) (log_file : Option Path) (co fo : Bool) (w : World) :
    (setup_logger host name level log_file co fo w).1.registry
      = updateReg w.registry name
          ((setup_logger host name level log_file co fo w).1.registry name) := by
  cases fo <;> cases log_file <;>
    simp only [setup_logger, attachFileHandler] <;>
    cases host.mkdirOutcome <;> cases host.fileHandlerOutcome <;>
    simp [updateReg_self, updateReg_updateReg]

/-- Claim C1: the registry entry produced by `setup_logger` for `name`
depends only on the call's own arguments, never on the prior state of the
registry or filesystem: after any sequence of calls with the same name, the
level and handler list are exactly those of the last call alone, so
repeated identical calls cannot accumulate duplicate handlers. -/
theorem setup_logger_last_config_wins (host : Host) (name : Option String)
    (level : Int) (log_file : Option Path) (co fo : Bool) (w w' : World) :
    (setup_logger host name level log_file co fo w).1.registry name
      = (setup_logger host name level log_file co fo w').1.registry name := by
  cases fo <;> cases co <;> cases log_file <;>
    simp only [setup_logger, attachFileHandler] <;>
    cases host.mkdirOutcome <;> cases host.fileHandlerOutcome <;>
    simp [updateReg]

/-- Claim C2: for every name, level and log_file, calling `setup_logger`
with console and file output disabled succeeds and yields a logger with an
empty handler list. -/
theorem setup_logger_disabled_outputs_no_handlers (host : Host)
    (name : Option String) (level : Int) (log_file : Option Path) (w : World) :
    (setup_logger host name level log_file false false w).2
        = Except.ok { level := level, propagate := false, handlers := [] }
      ∧ ((setup_logger host name level log_file false false w).1.registry name).handlers
        = [] := by
  constructor
  · rfl
  · simp [setup_logger, updateReg]

/-- Claim C3: with file_output and no explicit path (and the platform
succeeding), the default directory home/.tardis_em/logs is created with all
its parents, nothing changes when the whole chain already exists, and the
attached file handler targets tardis_<timestamp>.log inside that
directory. -/
theorem setup_logger_default_log_location (host : Host) (name : Option String)
    (level : Int) (co : Bool) (w : World)
    (hmk : host.mkdirOutcome = none) (hfh : host.fileHandlerOutcome = none) :
    defaultLogDir host.homeDir
        ∈ (setup_logger host name level none co true w).1.fs.dirs
      ∧ (initialSegments (defaultLogDir host.homeDir)).all
          (fun q => decide (q ∈ (setup_logger host name level none co true w).1.fs.dirs))
        = true
      ∧ ((initialSegments (defaultLogDir host.homeDir)).all
            (fun q => decide (q ∈ w.fs.dirs)) = true
          → (setup_logger host name level none co true w).1.fs.dirs = w.fs.dirs)
      ∧ ((setup_logger host name level none co true w).1.registry name).handlers.getLast?
        = some (fileHandlerFor
            (defaultLogDir host.homeDir ++ [defaultLogFileName host.nowTimestamp]) level)
      ∧ defaultLogFileName host.nowTimestamp
        = "tardis_" ++ host.nowTimestamp ++ ".log" := by
  have hdirs :
      (setup_logger host name level none co true w).1.fs.dirs
        = (w.fs.mkdirParents (defaultLogDir host.homeDir)).dirs := by
    simp [setup_logger, attachFileHandler, hmk, hfh, touchFile_dirs]
  refine ⟨?_, ?_, ?_, ?_, rfl⟩
  · rw [hdirs, mem_mkdirParents]
    exact Or.inr (self_mem_initialSegments _)
  · rw [List.all_eq_true]
    intro q hq
    rw [decide_eq_true_eq, hdirs, mem_mkdirParents]
    exact Or.inr hq
  · intro hall
    rw [List.all_eq_true] at hall
    rw [hdirs]
    exact mkdirParents_noop _ _ (fun q hq => by
      have := hall q hq
      rwa [decide_eq_true_eq] at this)
  · simp only [setup_logger, attachFileHandler, hmk, hfh]
    simp [updateReg]

/-- Claim C3 witness: the default-location theorem applied to a concrete
host (all platform calls succeed) and a fresh world. -/
theorem setup_logger_default_log_location_holds :
    host0.mkdirOutcome = none ∧ host0.fileHandlerOutcome = none
      ∧ (defaultLogDir host0.homeDir
            ∈ (setup_logger host0 (some "tardis_em") INFO none true true w0).1.fs.dirs
          ∧ (initialSegments (defaultLogDir host0.homeDir)).all
              (fun q => decide
                (q ∈ (setup_logger host0 (some "tardis_em") INFO none true true w0).1.fs.dirs))
            = true
          ∧ ((initialSegments (defaultLogDir host0.homeDir)).all
                (fun q => decide (q ∈ w0.fs.dirs)) = true
              → (setup_logger host0 (some "tardis_em") INFO none true true w0).1.fs.dirs
                = w0.fs.dirs)
          ∧ ((setup_logger host0 (some "tardis_em") INFO none true true w0).1.registry
                (some "tardis_em")).handlers.getLast?
            = some (fileHandlerFor
                (defaultLogDir host0.homeDir ++ [defaultLogFileName host0.nowTimestamp]) INFO)
          ∧ defaultLogFileName host0.nowTimestamp
            = "tardis_" ++ host0.nowTimestamp ++ ".log") :=
  ⟨rfl, rfl, setup_logger_default_log_location host0 (some "tardis_em") INFO true w0 rfl rfl⟩

/-- Claim C4: `setup_logger` catches nothing: any error it returns is
exactly the platform error raised by mkdir or by FileHandler, this can only
happen with file_output enabled, and the logger is then left partially
configured: handlers cleared, with only the console handler (when
requested) attached. -/
theorem setup_logger_error_propagates (host : Host) (name : Option String)
    (level : Int) (log_file : Option Path) (co fo : Bool) (w : World) (e : FsError)
    (herr : (setup_logger host name level log_file co fo w).2 = Except.error e) :
    (host.mkdirOutcome = some e ∨ host.fileHandlerOutcome = some e)
      ∧ fo = true
      ∧ (setup_logger host name level log_file co fo w).1.registry name
        = { level := level, propagate := false
            handlers := if co then [consoleHandler level] else [] } := by
  cases fo <;> cases co <;> cases log_file <;>
    cases hm : host.mkdirOutcome <;> cases hf : host.fileHandlerOutcome <;>
    simp_all [setup_logger, attachFileHandler, updateReg]

/-- Claim C4 witness: on a host whose mkdir fails with a permission error,
the error propagates and the logger keeps only the console handler. -/
theorem setup_logger_error_propagates_holds :
    (setup_logger hostMkdirFail (some "tardis_em") INFO none true true w0).2
        = Except.error FsError.permissionDenied
      ∧ ((hostMkdirFail.mkdirOutcome = some FsError.permissionDenied
            ∨ hostMkdirFail.fileHandlerOutcome = some FsError.permissionDenied)
          ∧ true = true
          ∧ (setup_logger hostMkdirFail (some "tardis_em") INFO none true true w0).1.registry
              (some "tardis_em")
            = { level := INFO, propagate := false
                handlers := if true then [consoleHandler INFO] else [] }) :=
  ⟨rfl, setup_logger_error_propagates hostMkdirFail (some "tardis_em") INFO none true true
    w0 FsError.permissionDenied rfl⟩

/-- Claim C5: with console output enabled the first attached handler is a
stream handler on stdout (not stderr), and every handler attached (console
and file alike) carries the fixed formatter with the fixed fmt and datefmt
strings. -/
theorem setup_logger_console_stdout_fixed_format (host : Host)
    (name : Option String) (level : Int) (log_file : Option Path) (fo : Bool) (w : World) :
    ((setup_logger host name level log_file true fo w).1.registry name).handlers.head?
        = some (consoleHandler level)
      ∧ (consoleHandler level).kind = HandlerKind.stream StreamTarget.stdout
      ∧ ((setup_logger host name level log_file true fo w).1.registry name).handlers.all
          (fun h => decide (h.formatter = some tardisFormatter)) = true
      ∧ tardisFormatter.fmt = "%(asctime)s - %(name)s - %(levelname)s - %(message)s"
      ∧ tardisFormatter.datefmt = "%Y-%m-%d %H:%M:%S" := by
  refine ⟨?_, rfl, ?_, rfl, rfl⟩ <;>
    (cases fo <;> cases log_file <;>
      simp only [setup_logger, attachFileHandler] <;>
      cases host.mkdirOutcome <;> cases host.fileHandlerOutcome <;>
      simp [updateReg, consoleHandler, fileHandlerFor])

/-- Claim C6: importing tardis_em sets PYTORCH_ENABLE_MPS_FALLBACK to "1",
overwriting any prior value, for every prior environment and logging
state. -/
theorem tardis_em_init_sets_mps_fallback (host : Host) (env : EnvVars) (w : World) :
    (tardis_em_init host env w).env "PYTORCH_ENABLE_MPS_FALLBACK" = some "1" := by
  simp only [tardis_em_init]
  split <;> simp [setEnvVar]

/-- Claim C7: `configure_tardis_logging` configures exactly the logger
named "tardis_em", forwarding its arguments to `setup_logger`, leaves every
other registry entry untouched, and on success emits the initialization
info message on that logger (every emitted event targets "tardis_em"). -/
theorem configure_tardis_logging_fixed_name (host : Host) (level : Int)
    (log_file : Option Path) (co fo : Bool) (w : World) :
    (configure_tardis_logging host level log_file co fo w).1
        = (setup_logger host (some "tardis_em") level log_file co fo w).1
      ∧ (configure_tardis_logging host level log_file co fo w).1.registry
        = updateReg w.registry (some "tardis_em")
            ((setup_logger host (some "tardis_em") level log_file co fo w).1.registry
              (some "tardis_em"))
      ∧ (configure_tardis_logging host level log_file co fo w).2.2.all
          (fun ev => decide (ev.loggerName = some "tardis_em")) = true
      ∧ ((configure_tardis_logging host level log_file co fo w).2.1 = Except.ok ()
          → (configure_tardis_logging host level log_file co fo w).2.2
            = [{ loggerName := some "tardis_em", level := INFO
                 msg := "TARDIS-em logging initialized" }]) := by
  have hfst :
      (configure_tardis_logging host level log_file co fo w).1
        = (setup_logger host (some "tardis_em") level log_file co fo w).1 := by
    simp only [configure_tardis_logging]
    split <;> rfl
  refine ⟨hfst, ?_, ?_, ?_⟩
  · rw [hfst]
    exact setup_logger_registry_eq host (some "tardis_em") level log_file co fo w
  · simp only [configure_tardis_logging]
    split <;> simp
  · simp only [configure_tardis_logging]
    split <;> simp

/-- Claim C7 witness: the fixed-name theorem applied to a concrete host
and world. -/
theorem configure_tardis_logging_fixed_name_holds :
    (configure_tardis_logging host0 INFO none true true w0).1
        = (setup_logger host0 (some "tardis_em") INFO none true true w0).1
      ∧ (configure_tardis_logging host0 INFO none true true w0).1.registry
        = updateReg w0.registry (some "tardis_em")
            ((setup_logger host0 (some "tardis_em") INFO none true true w0).1.registry
              (some "tardis_em"))
      ∧ (configure_tardis_logging host0 INFO none true true w0).2.2.all
          (fun ev => decide (ev.loggerName = some "tardis_em")) = true
      ∧ ((configure_tardis_logging host0 INFO none true true w0).2.1 = Except.ok ()
          → (configure_tardis_logging host0 INFO none true true w0).2.2
            = [{ loggerName := some "tardis_em", level := INFO
                 msg := "TARDIS-em logging initialized" }]) :=
  configure_tardis_logging_fixed_name host0 INFO none true true w0

/-- Claim C8: every logger configured by `setup_logger` ends with
`propagate = false`, for every argument combination and also on the error
paths. -/
theorem setup_logger_propagate_false (host : Host) (name : Option String)
    (level : Int) (log_file : Option Path) (co fo : Bool) (w : World) :
    ((setup_logger host name level log_file co fo w).1.registry name).propagate
      = false := by
  cases fo <;> cases co <;> cases log_file <;>
    simp only [setup_logger, attachFileHandler] <;>
    cases host.mkdirOutcome <;> cases host.fileHandlerOutcome <;>
    simp [updateReg]

/-- Claim C9: with an explicit log_file path and file_output enabled, no
directory is created, and the only possible filesystem change is the
opened log file itself. -/
theorem setup_logger_explicit_path_frame (host : Host) (name : Option String)
    (level : Int) (p : Path) (co : Bool) (w : World) :
    (setup_logger host name level (some p) co true w).1.fs.dirs = w.fs.dirs
      ∧ ((setup_logger host name level (some p) co true w).1.fs.files = w.fs.files
        ∨ (setup_logger host name level (some p) co true w).1.fs.files
          = w.fs.files ++ [p]) := by
  cases co <;>
    simp only [setup_logger, attachFileHandler] <;>
    cases host.fileHandlerOutcome <;>
    simp only [FileSystem.touchFile] <;>
    constructor <;> try simp
  all_goals (split <;> simp)

/-- Claim C10: `set_log_level` rewrites only the level of the "tardis_em"
logger and of each of its handlers; the handler list keeps its length,
kinds and order, `propagate` is untouched, and every other registry entry
is unchanged. -/
theorem set_log_level_frame (level : Int) (reg : Registry) :
    (set_log_level level reg) (some "tardis_em")
        = { reg (some "tardis_em") with
            level := level
            handlers := (reg (some "tardis_em")).handlers.map
              (fun h => { h with level := level }) }
      ∧ set_log_level level reg
        = updateReg reg (some "tardis_em")
            (set_log_level level reg (some "tardis_em"))
      ∧ ((set_log_level level reg) (some "tardis_em")).handlers.map Handler.kind
        = (reg (some "tardis_em")).handlers.map Handler.kind
      ∧ ((set_log_level level reg) (some "tardis_em")).propagate
        = (reg (some "tardis_em")).propagate := by
  refine ⟨?_, ?_, ?_, ?_⟩
  · simp [set_log_level, updateReg_self]
  · simp [set_log_level, updateReg_self, updateReg_updateReg]
  · simp [set_log_level, updateReg_self, List.map_map, Function.comp]
  · simp [set_log_level, updateReg_self]

end Tardis
